import Mathlib

/-!
Shallow embedding of the credit-negotiation pipeline of the
agent-negotiation-protocol repository, and proofs about it.

Numeric Python floats are embedded as rationals; dynamically typed JSON
values are embedded as small inductive types covering the shapes the code
distinguishes with isinstance checks; fallible operations return Except.
-/

/-! ## ESG score normalization (bank_agents/bank_agent.py, normalize_score) -/

/-- Embedding of the dynamically typed argument given to normalize_score:
None, a dict, a string (carrying the rational it parses to as a float,
or nothing when float() would raise ValueError), or a number. -/
inductive PyVal where
  | pyNone
  | pyDict
  | pyStr (parsed : Option ℚ)
  | pyNum (q : ℚ)
deriving DecidableEq

/-- Numeric core of normalize_score: values above 10 are divided by 10. -/
def normQ (q : ℚ) : ℚ := if 10 < q then q / 10 else q

/-- normalize_score from bank_agent.py lines 372-384: None and dicts map to
0.0, strings are parsed as floats (unparsable ones map to 0.0), and any
numeric value above 10 is divided by 10. -/
def normalize_score : PyVal → ℚ
  | .pyNone => 0
  | .pyDict => 0
  | .pyStr Option.none => 0
  | .pyStr (some q) => normQ q
  | .pyNum q => normQ q

/-! ## Credit intent validation (thirdparty/registry_util.py, validate_credit_intent) -/

/-- Numeric payload of a credit intent as received by the validation
endpoint, before pydantic parsing. -/
structure IntentData where
  amount : ℚ
  duration_months : ℤ
  annual_revenue : Option ℚ
deriving DecidableEq

/-- Pydantic gate of shared/schema.py CreditIntent: amount is gt=0 and
duration_months is gt=0, le=120. Parsing the payload into a CreditIntent
fails when this is false. -/
def schemaOk (d : IntentData) : Bool :=
  decide (0 < d.amount) && decide (0 < d.duration_months) && decide (d.duration_months ≤ 120)

/-- Result shape of the validate-credit-intent endpoint. -/
structure ValidationResult where
  valid : Bool
  errors : List String
deriving DecidableEq

/-- Business-rule error collection of registry_util.py lines 185-203: each
violated rule appends its own message, with no short-circuiting. -/
def businessErrors (d : IntentData) : List String :=
  (if d.amount < 1000 then ["Minimum loan amount is $1,000"] else []) ++
  (if 10000000 < d.amount then ["Maximum loan amount is $10,000,000"] else []) ++
  (if d.duration_months < 6 then ["Minimum loan duration is 6 months"] else []) ++
  (if 120 < d.duration_months then ["Maximum loan duration is 120 months"] else []) ++
  (match d.annual_revenue with
   | some r => if 0 < r ∧ 5 < d.amount / r then ["Loan amount cannot exceed 5x annual revenue"] else []
   | Option.none => [])

/-- validate_credit_intent from registry_util.py lines 177-223: pydantic
parse failure yields a single schema error; otherwise all business-rule
violations are collected and validity is their absence. -/
def validate_credit_intent (d : IntentData) : ValidationResult :=
  if schemaOk d then
    { valid := (businessErrors d).isEmpty, errors := businessErrors d }
  else
    { valid := false, errors := ["Schema validation error: invalid credit intent format"] }

/-- Number of violated business rules of a schema-valid intent. -/
def violationsCount (d : IntentData) : ℕ :=
  (if d.amount < 1000 then 1 else 0) +
  (if 10000000 < d.amount then 1 else 0) +
  (if d.duration_months < 6 then 1 else 0) +
  (if 120 < d.duration_months then 1 else 0) +
  (match d.annual_revenue with
   | some r => if 0 < r ∧ 5 < d.amount / r then 1 else 0
   | Option.none => 0)

/-! ## Per-bank pricing (bank_agents/bank_agent.py, _determine_pricing) -/

/-- Static bank parameters used by BankFinanceAgent (loaded by
shared/dynamic_loader.py): the base rate and the per-offer cap. -/
structure BankConfig where
  min_interest_rate : ℚ
  max_loan_amount : ℚ
deriving DecidableEq

/-- Numeric fields of the pricing JSON parsed from the collaborator
response; every field may be absent. -/
structure PricingResponse where
  base_rate : Option ℚ := Option.none
  risk_adjustment : Option ℚ := Option.none
  esg_adjustment : Option ℚ := Option.none
  carbon_adjusted_rate : Option ℚ := Option.none
  pricing_confidence : Option ℚ := Option.none
deriving DecidableEq

/-- Outcome of the narrative collaborator at the pricing stage: either the
response text failed to parse as JSON, or it parsed to some object. -/
inductive PricingOutcome where
  | malformed
  | parsed (d : PricingResponse)
deriving DecidableEq

/-- Pricing dict after _determine_pricing has filled every field. -/
structure PricingData where
  base_rate : ℚ
  risk_adjustment : ℚ
  esg_adjustment : ℚ
  carbon_adjusted_rate : ℚ
  pricing_confidence : ℚ
deriving DecidableEq

/-- Final repair chain of _determine_pricing lines 498-506: a rate of at
most 0 becomes max(0.1, bank base rate), then anything above 50 is capped
at 50. -/
def repairRate (baseRate x : ℚ) : ℚ :=
  let y := if x ≤ 0 then max (1/10) baseRate else x
  if 50 < y then 50 else y

/-- _determine_pricing from bank_agent.py lines 453-508. The collaborator
response is the only data source: a parse failure yields the fixed
fallback dict (risk adjustment +0.5, esg adjustment -0.2, rate = base
rate + 0.3), a parsed response has missing fields defaulted (base rate
from the bank, adjustments to 0, rate to the base-rate field, confidence
to 75); both branches then pass through the repair chain. -/
def determine_pricing (cfg : BankConfig) : PricingOutcome → PricingData
  | .malformed =>
    { base_rate := cfg.min_interest_rate
      risk_adjustment := 1/2
      esg_adjustment := -(1/5)
      carbon_adjusted_rate := repairRate cfg.min_interest_rate (cfg.min_interest_rate + 3/10)
      pricing_confidence := 75 }
  | .parsed d =>
    let b := d.base_rate.getD cfg.min_interest_rate
    { base_rate := b
      risk_adjustment := d.risk_adjustment.getD 0
      esg_adjustment := d.esg_adjustment.getD 0
      carbon_adjusted_rate := repairRate cfg.min_interest_rate (d.carbon_adjusted_rate.getD b)
      pricing_confidence := d.pricing_confidence.getD 75 }

/-- Rate written into the offer by _generate_offer lines 539-544: the
pricing rate, re-repaired to max(0.1, base rate) if it were nonpositive. -/
def offerCarbonRate (p : PricingData) : ℚ :=
  if p.carbon_adjusted_rate ≤ 0 then max (1/10) p.base_rate else p.carbon_adjusted_rate

/-! ## Risk assessment (bank_agents/bank_agent.py, _assess_credit_risk) -/

/-- Value found one level inside the amount key of a nested
recommended_maximum_exposure object: a number, a string (with a flag for a
leading dollar sign and the rational it parses to after stripping dollar
signs and commas, absent when float() would raise), or a further dict. -/
inductive ExposureInner where
  | num (q : ℚ)
  | str (startsDollar : Bool) (parsed : Option ℚ)
  | obj
deriving DecidableEq

/-- Shape of a recommended_maximum_exposure value: a bare number, a bare
string, or an object optionally carrying an amount key. -/
inductive ExposureVal where
  | num (q : ℚ)
  | str (startsDollar : Bool) (parsed : Option ℚ)
  | obj (amount : Option ExposureInner)
deriving DecidableEq

/-- Fields of the risk-assessment JSON parsed from the collaborator
response; every field may be absent. -/
structure RiskResponse where
  overall_risk_rating : Option String := Option.none
  risk_rating : Option String := Option.none
  confidence_score : Option ℚ := Option.none
  recommended_maximum_exposure : Option ExposureVal := Option.none
  key_risk_factors : Option (List String) := Option.none
  mitigating_factors : Option (List String) := Option.none
deriving DecidableEq

/-- Outcome of the narrative collaborator at the risk stage. -/
inductive RiskOutcome where
  | malformed
  | parsed (d : RiskResponse)
deriving DecidableEq

/-- Risk dict after _assess_credit_risk has filled the required fields. -/
structure RiskData where
  overall_risk_rating : String
  risk_rating : Option String
  confidence_score : ℚ
  recommended_maximum_exposure : ExposureVal
  key_risk_factors : List String
  mitigating_factors : List String
deriving DecidableEq

/-- _assess_credit_risk from bank_agent.py lines 250-291, applied to an
intent whose requested amount is the given rational. A parse failure
substitutes the fixed fallback assessment of lines 270-291, whose
recommended_maximum_exposure is the literal 1000000; a parsed response has
each required field defaulted when absent, with the exposure defaulting to
the requested amount. -/
def assess_credit_risk (amount : ℚ) : RiskOutcome → RiskData
  | .malformed =>
    { overall_risk_rating := "medium"
      risk_rating := some "medium"
      confidence_score := 70
      recommended_maximum_exposure := .num 1000000
      key_risk_factors := ["Limited Data"]
      mitigating_factors := ["Standard Assessment"] }
  | .parsed d =>
    { overall_risk_rating := d.overall_risk_rating.getD (d.risk_rating.getD "medium")
      risk_rating := d.risk_rating
      confidence_score := d.confidence_score.getD 70
      recommended_maximum_exposure := d.recommended_maximum_exposure.getD (.num amount)
      key_risk_factors := d.key_risk_factors.getD []
      mitigating_factors := d.mitigating_factors.getD [] }

/-! ## Exposure coercion and approved amount (bank_agent.py, _generate_offer) -/

/-- Embedding of _generate_offer lines 522-528 up to the min() call: only
a dict exposure is unwrapped through its amount key, and only a string
found inside a dict and starting with a dollar sign is stripped and
parsed; every other string or dict reaches min() uncoerced, where Python
raises. An absent amount key falls back to the requested amount. -/
def coerceExposure (requested : ℚ) : ExposureVal → Except String ℚ
  | .num q => .ok q
  | .str _ _ => .error "TypeError: min of float and str"
  | .obj a =>
    match a.getD (.num requested) with
    | .num q => .ok q
    | .str true (some q) => .ok q
    | .str true Option.none => .error "ValueError: invalid float literal"
    | .str false _ => .error "TypeError: min of float and str"
    | .obj => .error "TypeError: min of float and dict"

/-- Approved amount of _generate_offer line 528: the minimum of the
requested amount and the coerced exposure. The bank max_loan_amount is not
consulted on this path. -/
def approvedAmount (requested : ℚ) (exposure : ExposureVal) : Except String ℚ :=
  (coerceExposure requested exposure).map (fun v => min requested v)

/-! ## WFAP bank agent (bank_agents/wfap_bank_agent.py, _generate_credit_offer) -/

/-- Static parameters of shared/config.py BankConfig used by WFAPBankAgent. -/
structure WfapBankConfig where
  base_rate : ℚ
  esg_multiplier : ℚ
  max_loan_amount : ℚ
deriving DecidableEq

/-- Credit-score rate adjustment of wfap_bank_agent.py lines 181-186. -/
def wfapRateAdjustment (creditScore : ℤ) : ℚ :=
  if 750 ≤ creditScore then -(1/2) else if 650 ≤ creditScore then 0 else 1/2

/-- Market adjustment of wfap_bank_agent.py lines 189-197: a truthy
price-earnings number of a public company selects a bucket, everything
else is the 0.1 private-company premium. -/
def wfapMarketAdjustment (isPublic : Bool) (priceEarnings : Option ℚ) : ℚ :=
  match isPublic, priceEarnings with
  | true, some p =>
    if p = 0 then 1/10
    else if p < 10 then 3/10
    else if 20 < p then -(1/5)
    else 0
  | _, _ => 1/10

/-- Interest rate of wfap_bank_agent.py line 200. -/
def wfap_final_rate (cfg : WfapBankConfig) (creditScore : ℤ) (isPublic : Bool)
    (priceEarnings : Option ℚ) : ℚ :=
  cfg.base_rate + wfapRateAdjustment creditScore + wfapMarketAdjustment isPublic priceEarnings

/-- Carbon-adjusted rate of wfap_bank_agent.py line 203: the final rate
multiplied by the esg multiplier, with no clamping. -/
def wfap_carbon_rate (cfg : WfapBankConfig) (creditScore : ℤ) (isPublic : Bool)
    (priceEarnings : Option ℚ) : ℚ :=
  wfap_final_rate cfg creditScore isPublic priceEarnings * cfg.esg_multiplier

/-- Approved amount of wfap_bank_agent.py line 211. -/
def wfap_approved_amount (amount : ℚ) (cfg : WfapBankConfig) : ℚ :=
  min amount cfg.max_loan_amount

/-! ## Offers, intents and evaluation (shared/schemas.py, company_agent) -/

/-- ESG scoring breakdown of shared/schemas.py ESGScore. -/
structure ESGScore where
  environmental_score : ℚ
  social_score : ℚ
  governance_score : ℚ
  overall_score : ℚ
  carbon_footprint_category : String
deriving DecidableEq

/-- ESG preference block of a credit intent. -/
structure ESGPreferences where
  min_esg_score : ℚ
  carbon_neutral_preference : Bool
  social_impact_weight : ℚ
  governance_weight : ℚ
deriving DecidableEq

/-- Fields of a credit intent consumed by the evaluators. -/
structure CreditIntent where
  amount : ℚ
  esg_preferences : ESGPreferences
deriving DecidableEq

/-- Fields of a credit offer consumed by the evaluators. The days_valid
field embeds the datetime difference (offer_valid_until minus now).days
computed by the terms scorer. -/
structure CreditOffer where
  approved_amount : ℚ
  interest_rate : ℚ
  carbon_adjusted_rate : ℚ
  processing_fee : ℚ
  collateral_required : Bool
  early_repayment_penalty : Bool
  grace_period_days : ℤ
  repayment_schedule : String
  esg_score : ESGScore
  days_valid : ℤ
deriving DecidableEq

/-- Evaluation result of shared/schemas.py OfferEvaluation (scores only;
the reasoning text is display data). -/
structure OfferEvaluation where
  total_score : ℚ
  financial_score : ℚ
  esg_score : ℚ
  terms_score : ℚ
  recommendation : String
deriving DecidableEq

/-- _calculate_financial_score of wfap_company_agent.py lines 233-259. -/
def calc_financial_score (o : CreditOffer) (i : CreditIntent) : ℚ :=
  let amountPenalty : ℚ :=
    if o.approved_amount / i.amount < 4/5 then 30
    else if o.approved_amount / i.amount < 9/10 then 15 else 0
  let ratePenalty : ℚ :=
    if 8 < o.interest_rate then 30
    else if 6 < o.interest_rate then 15
    else if 4 < o.interest_rate then 5 else 0
  let feePenalty : ℚ :=
    if 1 < o.processing_fee / o.approved_amount * 100 then 20
    else if 1/2 < o.processing_fee / o.approved_amount * 100 then 10 else 0
  max 0 (min 100 (100 - amountPenalty - ratePenalty - feePenalty))

/-- _calculate_esg_score of wfap_company_agent.py lines 261-285. -/
def calc_esg_score (o : CreditOffer) (i : CreditIntent) : ℚ :=
  let minPenalty : ℚ :=
    if o.esg_score.overall_score < i.esg_preferences.min_esg_score then 40 else 0
  let carbonPenalty : ℚ :=
    if i.esg_preferences.carbon_neutral_preference ∧
       o.esg_score.carbon_footprint_category ≠ "low" then 30 else 0
  let socialDiff := |o.esg_score.social_score - i.esg_preferences.social_impact_weight * 10|
  let governanceDiff := |o.esg_score.governance_score - i.esg_preferences.governance_weight * 10|
  max 0 (min 100 (100 - minPenalty - carbonPenalty - (socialDiff + governanceDiff) * 2))

/-- _calculate_terms_score of wfap_company_agent.py lines 287-316. -/
def calc_terms_score (o : CreditOffer) : ℚ :=
  let collateralPenalty : ℚ := if o.collateral_required then 20 else 0
  let repayPenalty : ℚ := if o.early_repayment_penalty then 15 else 0
  let gracePenalty : ℚ :=
    if o.grace_period_days < 15 then 10 else if o.grace_period_days < 30 then 5 else 0
  let schedulePenalty : ℚ := if o.repayment_schedule ≠ "monthly" then 10 else 0
  let validityPenalty : ℚ := if o.days_valid < 3 then 20 else if o.days_valid < 7 then 10 else 0
  max 0 (min 100 (100 - collateralPenalty - repayPenalty - gracePenalty -
    schedulePenalty - validityPenalty))

/-- _evaluate_offer of wfap_company_agent.py lines 180-231: with no
matching intent the defensive zero-scored reject evaluation is returned;
otherwise the three clamped scores are combined with weights
0.4, 0.3, 0.3 and bucketed at 80 and 60. -/
def evaluate_offer (o : CreditOffer) : Option CreditIntent → OfferEvaluation
  | Option.none =>
    { total_score := 0, financial_score := 0, esg_score := 0, terms_score := 0
      recommendation := "reject" }
  | some i =>
    let f := calc_financial_score o i
    let e := calc_esg_score o i
    let t := calc_terms_score o
    let total := 2/5 * f + 3/10 * e + 3/10 * t
    { total_score := total, financial_score := f, esg_score := e, terms_score := t
      recommendation :=
        if 80 ≤ total then "accept" else if 60 ≤ total then "negotiate" else "reject" }

/-- _calculate_financial_score of company_agent/skills.py lines 137-148. -/
def skills_financial_score (o : CreditOffer) : ℚ :=
  let rateScore := max 0 (100 - (o.carbon_adjusted_rate - 3) * 10)
  let amountScore := min 100 (o.approved_amount / 1000000 * 50)
  let feeScore := max 0 (100 - o.processing_fee / 1000)
  rateScore * (3/5) + amountScore * (3/10) + feeScore * (1/10)

/-- _calculate_esg_score of company_agent/skills.py lines 150-152. -/
def skills_esg_score (o : CreditOffer) : ℚ :=
  o.esg_score.overall_score * 10

/-- _calculate_terms_score of company_agent/skills.py lines 154-165. -/
def skills_terms_score (o : CreditOffer) : ℚ :=
  let collateralScore : ℚ := if o.collateral_required then 50 else 100
  let repayScore : ℚ := if o.early_repayment_penalty then 70 else 100
  let graceScore : ℚ := min 100 ((o.grace_period_days : ℚ) * 2)
  collateralScore * (2/5) + repayScore * (3/10) + graceScore * (3/10)

/-- _evaluate_single_offer of company_agent/skills.py lines 102-135:
weights 0.40, 0.35, 0.25 and buckets at 75 and 60. -/
def evaluate_single_offer (o : CreditOffer) : OfferEvaluation :=
  let f := skills_financial_score o
  let e := skills_esg_score o
  let t := skills_terms_score o
  let total := f * (2/5) + e * (7/20) + t * (1/4)
  { total_score := total, financial_score := f, esg_score := e, terms_score := t
    recommendation :=
      if 75 ≤ total then "accept" else if 60 ≤ total then "negotiate" else "reject" }

/-! ## Broadcast collection (company_agent/agent.py, broadcast_credit_intent) -/

/-- Outcome of one per-bank request as seen by the result loop of
broadcast_credit_intent lines 112-122: a successful offer, a None result
(non-success response, handled inside _send_credit_intent_to_bank), or an
exception object gathered by return_exceptions=True. -/
inductive BankCallResult where
  | offer (o : CreditOffer)
  | declined
  | failed
deriving DecidableEq

/-- Whether a per-bank outcome contributes an offer. -/
def isSuccess : BankCallResult → Bool
  | .offer _ => true
  | .declined => false
  | .failed => false

/-- Result loop of broadcast_credit_intent lines 115-122: exceptions and
None results are logged and skipped, offers are collected in order. -/
def broadcast_collect (results : List BankCallResult) : List CreditOffer :=
  results.filterMap fun r =>
    match r with
    | .offer o => some o
    | _ => Option.none

/-! ## Pricing formula as the specification words it -/

/-- Modelled from the spec: the fixed risk-adjustment lookup by risk
rating (low maps to -0.25, medium to 0, high to +0.50) that section 4.2
step 4 attributes to the simple pricing variant. No such lookup exists in
the source. -/
def specRiskLookup : String → ℚ
  | "low" => -(1/4)
  | "high" => 1/2
  | _ => 0

/-- Modelled from the spec: the pre-clamp rate formula of section 4.2
step 4, base rate plus the risk lookup minus (100 - avg(E,S,G))/100 times
the esg multiplier, with the ESG average on a 0-100 scale. -/
def specPreClampRate (baseRate : ℚ) (rating : String) (esgAvg100 : ℚ) (mult : ℚ) : ℚ :=
  baseRate + specRiskLookup rating - (100 - esgAvg100) / 100 * mult

/-! ## Concrete instances used by witnesses and counterexamples -/

/-- Bank A of shared/config.py: base rate 4.5 (max loan amount as in
shared/schema.py Bank default). -/
def bankA : BankConfig := { min_interest_rate := 9/2, max_loan_amount := 100000000 }

/-- A bank whose per-offer cap is 1000000. -/
def bankSmall : BankConfig := { min_interest_rate := 9/2, max_loan_amount := 1000000 }

/-- WFAP view of bank A: base rate 4.5, esg multiplier 0.8. -/
def wfapBankA : WfapBankConfig :=
  { base_rate := 9/2, esg_multiplier := 4/5, max_loan_amount := 100000000 }

/-- The claimed rejection case with amount 500. -/
def intent500 : IntentData :=
  { amount := 500, duration_months := 12, annual_revenue := Option.none }

/-- The claimed rejection case with amount 2000000 and revenue 300000. -/
def intent2M : IntentData :=
  { amount := 2000000, duration_months := 12, annual_revenue := some 300000 }

/-- The claimed rejection case with duration 150 months. -/
def intent150 : IntentData :=
  { amount := 5000, duration_months := 150, annual_revenue := Option.none }

/-- A concrete offer: 1000000 approved at 5 percent carbon-adjusted, no
fees, no collateral, no repayment penalty, 30 days grace, monthly
schedule, ESG overall 7, valid for 7 days. -/
def offerX : CreditOffer :=
  { approved_amount := 1000000
    interest_rate := 5
    carbon_adjusted_rate := 5
    processing_fee := 0
    collateral_required := false
    early_repayment_penalty := false
    grace_period_days := 30
    repayment_schedule := "monthly"
    esg_score := { environmental_score := 8, social_score := 7, governance_score := 8
                   overall_score := 7, carbon_footprint_category := "medium" }
    days_valid := 7 }

/-- A parsed pricing response whose collaborator-supplied numbers ignore
the claimed lookup: risk adjustment 7 and rate 20 at base rate 4.5. -/
def pricingResp20 : PricingResponse :=
  { base_rate := some (9/2), risk_adjustment := some 7, esg_adjustment := some 0,
    carbon_adjusted_rate := some 20, pricing_confidence := some 90 }

/-- A parsed pricing response carrying only a base-rate field of 30, with
the carbon-adjusted rate missing. -/
def pricingRespBase30 : PricingResponse :=
  { base_rate := some 30 }

/-- A parsed pricing response whose carbon-adjusted rate is the invalid -5. -/
def pricingRespNeg : PricingResponse :=
  { carbon_adjusted_rate := some (-5) }

/-- A WFAP bank configuration with a large base rate 63 and esg
multiplier 1; nothing in shared/config.py constrains these fields. -/
def wfapBankBig : WfapBankConfig :=
  { base_rate := 63, esg_multiplier := 1, max_loan_amount := 100000000 }

/-! ## Helper lemmas -/

theorem businessErrors_length (d : IntentData) :
    (businessErrors d).length = violationsCount d := by
  rcases d with ⟨a, m, rev⟩
  cases rev <;>
    simp only [businessErrors, violationsCount] <;>
    split_ifs <;>
    simp

theorem clamp_bounds (x : ℚ) : 0 ≤ max 0 (min 100 x) ∧ max 0 (min 100 x) ≤ 100 :=
  ⟨le_max_left 0 _, max_le (by norm_num) (min_le_left _ _)⟩

theorem repairRate_pos_le (b x : ℚ) : 0 < repairRate b x ∧ repairRate b x ≤ 50 := by
  have h2 : (1 : ℚ)/10 ≤ max (1/10) b := le_max_left _ _
  simp only [repairRate]
  split_ifs <;> constructor <;> linarith

theorem repairRate_nonpos (b v : ℚ) (h : v ≤ 0) :
    repairRate b v = min 50 (max (1/10) b) := by
  simp only [repairRate, if_pos h]
  rcases le_or_lt (max (1/10) b) 50 with h1 | h1
  · rw [if_neg (not_lt.mpr h1), min_eq_right h1]
  · rw [if_pos h1, min_eq_left h1.le]

theorem repairRate_id (b v : ℚ) (h0 : 0 < v) (h50 : v ≤ 50) : repairRate b v = v := by
  simp only [repairRate]
  rw [if_neg (not_le.mpr h0), if_neg (not_lt.mpr h50)]

theorem broadcast_collect_nil : broadcast_collect [] = [] := rfl

theorem broadcast_collect_cons_offer (o : CreditOffer) (rs : List BankCallResult) :
    broadcast_collect (.offer o :: rs) = o :: broadcast_collect rs := rfl

theorem broadcast_collect_cons_declined (rs : List BankCallResult) :
    broadcast_collect (.declined :: rs) = broadcast_collect rs := rfl

theorem broadcast_collect_cons_failed (rs : List BankCallResult) :
    broadcast_collect (.failed :: rs) = broadcast_collect rs := rfl

/-! ## Claims -/

/-- C9: normalize_score is the identity on scores already in the 0-10
range, divides scores on the 0-100 scale (values above 10) by 10 exactly
once, and is therefore idempotent on both domains. -/
theorem normalize_idempotent_on_scales :
    (∀ q : ℚ, 0 ≤ q → q ≤ 10 →
      normalize_score (.pyNum q) = q ∧
      normalize_score (.pyNum (normalize_score (.pyNum q))) = normalize_score (.pyNum q)) ∧
    (∀ q : ℚ, 10 < q → q ≤ 100 →
      normalize_score (.pyNum q) = q / 10 ∧
      normalize_score (.pyNum (normalize_score (.pyNum q))) = normalize_score (.pyNum q)) := by
  constructor
  · intro q _ hq
    have h1 : normalize_score (.pyNum q) = q := by
      simp [normalize_score, normQ, not_lt.mpr hq]
    exact ⟨h1, by rw [h1, h1]⟩
  · intro q h10 h100
    have h1 : normalize_score (.pyNum q) = q / 10 := by
      simp [normalize_score, normQ, h10]
    refine ⟨h1, ?_⟩
    rw [h1]
    have hle : ¬ (10 < q / 10) := by
      rw [not_lt]
      linarith
    simp [normalize_score, normQ, hle]

/-- Witness for C9 at the concrete scores 7 (already 0-10) and 85 (0-100
scale). -/
theorem normalize_idempotent_on_scales_witness :
    (normalize_score (.pyNum 7) = 7 ∧
      normalize_score (.pyNum (normalize_score (.pyNum 7))) = normalize_score (.pyNum 7)) ∧
    (normalize_score (.pyNum 85) = 85 / 10 ∧
      normalize_score (.pyNum (normalize_score (.pyNum 85))) = normalize_score (.pyNum 85)) :=
  ⟨normalize_idempotent_on_scales.1 7 (by norm_num) (by norm_num),
   normalize_idempotent_on_scales.2 85 (by norm_num) (by norm_num)⟩

/-- C10: normalize_score is total on every input shape it can receive:
None, dicts and unparsable strings map to 0, numeric strings behave like
the number they parse to, and numeric values above 10 are divided by 10
while the rest pass through. -/
theorem normalize_score_total_mapping :
    normalize_score .pyNone = 0 ∧
    normalize_score .pyDict = 0 ∧
    normalize_score (.pyStr Option.none) = 0 ∧
    (∀ q : ℚ, normalize_score (.pyStr (some q)) = normalize_score (.pyNum q)) ∧
    (∀ q : ℚ, 10 < q → normalize_score (.pyNum q) = q / 10) ∧
    (∀ q : ℚ, q ≤ 10 → normalize_score (.pyNum q) = q) := by
  refine ⟨rfl, rfl, rfl, fun q => rfl, fun q h => ?_, fun q h => ?_⟩
  · simp [normalize_score, normQ, h]
  · simp [normalize_score, normQ, not_lt.mpr h]

/-- Witness for C10 at a numeric string carrying 85 and at the numbers 85
and 7. -/
theorem normalize_score_total_mapping_witness :
    normalize_score (.pyStr (some 85)) = normalize_score (.pyNum 85) ∧
    normalize_score (.pyNum 85) = 85 / 10 ∧
    normalize_score (.pyNum 7) = 7 :=
  ⟨normalize_score_total_mapping.2.2.2.1 85,
   normalize_score_total_mapping.2.2.2.2.1 85 (by norm_num),
   normalize_score_total_mapping.2.2.2.2.2 7 (by norm_num)⟩

/-- C7: for every schema-valid intent the validator collects one
human-readable error per violated business rule without short-circuiting,
and validity is exactly the absence of violations; the three particular
inputs of the claim (amount 500, amount 2000000 with revenue 300000,
duration 150) are each rejected. -/
theorem validate_collects_all_violations (d : IntentData) (h : schemaOk d = true) :
    ((validate_credit_intent d).valid = true ↔ violationsCount d = 0) ∧
    (validate_credit_intent d).errors.length = violationsCount d ∧
    validate_credit_intent intent500 =
      { valid := false, errors := ["Minimum loan amount is $1,000"] } ∧
    validate_credit_intent intent2M =
      { valid := false, errors := ["Loan amount cannot exceed 5x annual revenue"] } ∧
    validate_credit_intent intent150 =
      { valid := false, errors := ["Schema validation error: invalid credit intent format"] } := by
  refine ⟨?_, ?_, by decide,
    by norm_num [validate_credit_intent, schemaOk, businessErrors, intent2M], by decide⟩
  · simp only [validate_credit_intent, h, if_true, List.isEmpty_iff_length_eq_zero,
      businessErrors_length d]
  · simp only [validate_credit_intent, h, if_true]
    exact businessErrors_length d

/-- Witness for C7 at the concrete intent with amount 500. -/
theorem validate_collects_all_violations_witness :
    (validate_credit_intent intent500).errors.length = violationsCount intent500 :=
  (validate_collects_all_violations intent500 (by decide)).2.1

/-- Value of isSuccess on an offer outcome. -/
theorem isSuccess_offer (o : CreditOffer) : isSuccess (.offer o) = true := rfl

/-- Value of isSuccess on a declined outcome. -/
theorem isSuccess_declined : isSuccess .declined = false := rfl

/-- Value of isSuccess on a failed outcome. -/
theorem isSuccess_failed : isSuccess .failed = false := rfl

/-- The collected list is as long as the number of successful outcomes. -/
theorem broadcast_collect_length (rs : List BankCallResult) :
    (broadcast_collect rs).length = rs.countP isSuccess := by
  induction rs with
  | nil => rfl
  | cons r rs ih =>
    cases r <;>
      simp [broadcast_collect_cons_offer, broadcast_collect_cons_declined,
        broadcast_collect_cons_failed, List.countP_cons, isSuccess_offer, isSuccess_declined,
        isSuccess_failed, ih]

/-- Successful and unsuccessful outcomes partition the outcome list. -/
theorem countP_isSuccess_split (rs : List BankCallResult) :
    rs.countP isSuccess + rs.countP (fun r => !isSuccess r) = rs.length := by
  induction rs with
  | nil => rfl
  | cons r rs ih =>
    cases r <;>
      simp only [List.countP_cons, isSuccess_offer, isSuccess_declined, isSuccess_failed,
        Bool.not_true, Bool.not_false, List.length_cons] <;>
      simp <;> omega

/-- Collected offers are exactly the offers among the outcomes. -/
theorem broadcast_collect_mem (rs : List BankCallResult) (o : CreditOffer) :
    o ∈ broadcast_collect rs ↔ BankCallResult.offer o ∈ rs := by
  induction rs with
  | nil => simp [broadcast_collect_nil]
  | cons r rs ih =>
    cases r with
    | offer o2 => simp [broadcast_collect_cons_offer, ih]
    | declined => simp [broadcast_collect_cons_declined, ih]
    | failed => simp [broadcast_collect_cons_failed, ih]

/-- C5: the broadcast collection keeps exactly the successful offers, in
completion order; its size is the number of banks minus the number of
failed or declined outcomes, and when every bank fails the result is the
empty list rather than an error. -/
theorem broadcast_collects_successes (results : List BankCallResult) :
    (broadcast_collect results).length = results.countP isSuccess ∧
    (broadcast_collect results).length + results.countP (fun r => !isSuccess r) =
      results.length ∧
    (∀ o : CreditOffer, o ∈ broadcast_collect results ↔ BankCallResult.offer o ∈ results) ∧
    ((∀ r ∈ results, isSuccess r = false) → broadcast_collect results = []) := by
  refine ⟨broadcast_collect_length results, ?_, broadcast_collect_mem results, ?_⟩
  · rw [broadcast_collect_length results]
    exact countP_isSuccess_split results
  · intro hall
    have h0 : results.countP isSuccess = 0 := by
      rw [List.countP_eq_zero]
      intro a ha
      simp [hall a ha]
    have hlen := broadcast_collect_length results
    rw [h0] at hlen
    exact List.length_eq_zero.mp hlen

/-- Witness for C5: a broadcast where every bank failed or declined
returns the empty list. -/
theorem broadcast_collects_successes_witness :
    broadcast_collect [BankCallResult.failed, BankCallResult.declined] = [] :=
  (broadcast_collects_successes [BankCallResult.failed, BankCallResult.declined]).2.2.2
    (by decide)

/-- C8 counterexample: a currency-formatted string arriving at the top
level of recommended_maximum_exposure is not coerced (the code only
strips dollar signs inside the object branch), so the min() computing the
approved amount raises; the same string nested under an amount key is
coerced fine. -/
theorem coerce_top_level_currency_string_fails :
    coerceExposure 1000000 (.str true (some 1000000)) =
      .error "TypeError: min of float and str" ∧
    coerceExposure 1000000 (.obj (some (.str true (some 1000000)))) = .ok 1000000 :=
  ⟨rfl, rfl⟩

/-- C8 amended: bare numbers, objects with a numeric amount, objects with
a dollar-prefixed parsable string amount, and objects without an amount
key all coerce to a number, while every bare string reaches min()
uncoerced and the computation fails there. -/
theorem coerce_exposure_handled_forms :
    (∀ requested q : ℚ, coerceExposure requested (.num q) = .ok q) ∧
    (∀ requested q : ℚ, coerceExposure requested (.obj (some (.num q))) = .ok q) ∧
    (∀ requested q : ℚ, coerceExposure requested (.obj (some (.str true (some q)))) = .ok q) ∧
    (∀ requested : ℚ, coerceExposure requested (.obj Option.none) = .ok requested) ∧
    (∀ (requested : ℚ) (b : Bool) (p : Option ℚ),
      ∃ msg : String, coerceExposure requested (.str b p) = .error msg) :=
  ⟨fun _ _ => rfl, fun _ _ => rfl, fun _ _ => rfl, fun _ => rfl, fun _ _ _ => ⟨_, rfl⟩⟩

/-- Financial score of the intent-aware evaluator is clamped to 0..100. -/
theorem calc_financial_score_bounds (o : CreditOffer) (i : CreditIntent) :
    0 ≤ calc_financial_score o i ∧ calc_financial_score o i ≤ 100 := by
  simp only [calc_financial_score]
  exact clamp_bounds _

/-- ESG score of the intent-aware evaluator is clamped to 0..100. -/
theorem calc_esg_score_bounds (o : CreditOffer) (i : CreditIntent) :
    0 ≤ calc_esg_score o i ∧ calc_esg_score o i ≤ 100 := by
  simp only [calc_esg_score]
  exact clamp_bounds _

/-- Terms score of the intent-aware evaluator is clamped to 0..100. -/
theorem calc_terms_score_bounds (o : CreditOffer) :
    0 ≤ calc_terms_score o ∧ calc_terms_score o ≤ 100 := by
  simp only [calc_terms_score]
  exact clamp_bounds _

/-- C1 counterexample: the original claim fails on both cited paths. The
WFAP offer generation of wfap_bank_agent.py applies no clamp, so the bank
configuration with base rate 63 produces an offer whose carbon-adjusted
rate is 63.6, above 50; and in BankFinanceAgent a parsed pricing response
carrying base_rate 30 and no carbon_adjusted_rate has its rate filled to
30, which is not at most the bank base rate of 4.5. -/
theorem offer_rate_unclamped_counterexample :
    wfap_carbon_rate wfapBankBig 600 false Option.none = 318/5 ∧
    ¬ (wfap_carbon_rate wfapBankBig 600 false Option.none ≤ 50) ∧
    (determine_pricing bankA (.parsed pricingRespBase30)).carbon_adjusted_rate = 30 ∧
    ¬ ((determine_pricing bankA (.parsed pricingRespBase30)).carbon_adjusted_rate ≤
        bankA.min_interest_rate) := by
  refine ⟨?_, ?_, ?_, ?_⟩
  · norm_num [wfap_carbon_rate, wfap_final_rate, wfapRateAdjustment,
      wfapMarketAdjustment, wfapBankBig]
  · norm_num [wfap_carbon_rate, wfap_final_rate, wfapRateAdjustment,
      wfapMarketAdjustment, wfapBankBig]
  · norm_num [determine_pricing, bankA, pricingRespBase30, repairRate]
  · norm_num [determine_pricing, bankA, pricingRespBase30, repairRate]

/-- C1 amended: in the BankFinanceAgent pipeline, for every bank
configuration and pricing-stage outcome the carbon_adjusted_rate of the
pricing result, and of the offer built from it, is strictly greater than
0 and at most 50; a nonpositive parsed rate is repaired to min(50,
max(0.1, bank base rate)); a missing rate is filled from the response
base-rate field (the bank base rate when that too is missing) and then
subjected to the same repair and cap, without being bounded by the bank
base rate. The WFAP variant applies no clamp: its carbon_adjusted_rate is
exactly (base rate + credit-score adjustment + market adjustment) times
the esg multiplier, which exceeds 50 for configurations with base rate
above about 50. -/
theorem offer_rate_range_by_variant (cfg : BankConfig) (o : PricingOutcome) :
    0 < (determine_pricing cfg o).carbon_adjusted_rate ∧
    (determine_pricing cfg o).carbon_adjusted_rate ≤ 50 ∧
    offerCarbonRate (determine_pricing cfg o) = (determine_pricing cfg o).carbon_adjusted_rate ∧
    (∀ (d : PricingResponse) (v : ℚ), o = .parsed d → d.carbon_adjusted_rate = some v → v ≤ 0 →
      (determine_pricing cfg o).carbon_adjusted_rate =
        min 50 (max (1/10) cfg.min_interest_rate)) ∧
    (∀ (w : WfapBankConfig) (creditScore : ℤ) (isPublic : Bool) (priceEarnings : Option ℚ),
      wfap_carbon_rate w creditScore isPublic priceEarnings =
        (w.base_rate + wfapRateAdjustment creditScore +
          wfapMarketAdjustment isPublic priceEarnings) * w.esg_multiplier) ∧
    ¬ (wfap_carbon_rate wfapBankBig 600 false Option.none ≤ 50) := by
  have hcr : 0 < (determine_pricing cfg o).carbon_adjusted_rate ∧
      (determine_pricing cfg o).carbon_adjusted_rate ≤ 50 := by
    cases o with
    | malformed => exact repairRate_pos_le _ _
    | parsed d =>
      simp only [determine_pricing]
      exact repairRate_pos_le _ _
  refine ⟨hcr.1, hcr.2, ?_, ?_, fun w creditScore isPublic priceEarnings => rfl, ?_⟩
  · rw [offerCarbonRate, if_neg (not_le.mpr hcr.1)]
  · intro d v ho hv h0
    subst ho
    have hstep : (determine_pricing cfg (.parsed d)).carbon_adjusted_rate =
        repairRate cfg.min_interest_rate v := by
      simp [determine_pricing, hv]
    rw [hstep, repairRate_nonpos _ _ h0]
  · norm_num [wfap_carbon_rate, wfap_final_rate, wfapRateAdjustment,
      wfapMarketAdjustment, wfapBankBig]

/-- Witness for C1 at bank A and a parsed response whose rate is -5. -/
theorem offer_rate_range_by_variant_witness :
    (determine_pricing bankA (.parsed pricingRespNeg)).carbon_adjusted_rate =
      min 50 (max (1/10) bankA.min_interest_rate) :=
  (offer_rate_range_by_variant bankA (.parsed pricingRespNeg)).2.2.2.1
    pricingRespNeg (-5) rfl rfl (by norm_num)

/-- C2 counterexample: the legacy evaluator of company_agent/skills.py
gives the concrete offer a total of 75.7, inside the claimed negotiate
band 60..80, yet recommends accept, because its accept threshold is 75. -/
theorem skills_accepts_in_negotiate_band :
    (evaluate_single_offer offerX).total_score = 757/10 ∧
    (evaluate_single_offer offerX).recommendation = "accept" ∧
    (60 : ℚ) ≤ 757/10 ∧ (757 : ℚ)/10 < 80 ∧
    (evaluate_single_offer offerX).recommendation ≠ "negotiate" := by
  have hrec : (evaluate_single_offer offerX).recommendation = "accept" := by
    norm_num [evaluate_single_offer, skills_financial_score, skills_esg_score,
      skills_terms_score, offerX]
  refine ⟨?_, hrec, by norm_num, by norm_num, ?_⟩
  · norm_num [evaluate_single_offer, skills_financial_score, skills_esg_score,
      skills_terms_score, offerX]
  · rw [hrec]
    decide

/-- C2 amended: the intent-aware evaluator of wfap_company_agent.py
returns totals in 0..100 (also on the defensive no-intent path) with the
buckets accept at 80 and negotiate at 60, while the legacy evaluator of
company_agent/skills.py buckets accept at 75 and negotiate at 60. -/
theorem evaluate_offer_range_and_buckets :
    (∀ (o : CreditOffer) (mi : Option CreditIntent),
      0 ≤ (evaluate_offer o mi).total_score ∧
      (evaluate_offer o mi).total_score ≤ 100 ∧
      (evaluate_offer o mi).recommendation =
        (if 80 ≤ (evaluate_offer o mi).total_score then "accept"
         else if 60 ≤ (evaluate_offer o mi).total_score then "negotiate" else "reject")) ∧
    (∀ o : CreditOffer,
      (evaluate_single_offer o).recommendation =
        (if 75 ≤ (evaluate_single_offer o).total_score then "accept"
         else if 60 ≤ (evaluate_single_offer o).total_score then "negotiate" else "reject")) := by
  constructor
  · intro o mi
    cases mi with
    | none =>
      refine ⟨le_refl 0, by norm_num [evaluate_offer], ?_⟩
      simp only [evaluate_offer]
      norm_num
    | some i =>
      obtain ⟨hf0, hf1⟩ := calc_financial_score_bounds o i
      obtain ⟨he0, he1⟩ := calc_esg_score_bounds o i
      obtain ⟨ht0, ht1⟩ := calc_terms_score_bounds o
      refine ⟨?_, ?_, rfl⟩
      · simp only [evaluate_offer]
        linarith
      · simp only [evaluate_offer]
        linarith
  · intro o
    rfl

/-- C3: on a parse failure at the risk stage the fallback assessment has
rating medium and confidence 70 as claimed, but its recommended maximum
exposure is the hardcoded 1000000 rather than the requested amount
(500000 here), contradicting the comment on bank_agent.py line 278; offer
generation still completes, approving the requested amount. -/
theorem risk_fallback_exposure_is_constant :
    (assess_credit_risk 500000 .malformed).overall_risk_rating = "medium" ∧
    (assess_credit_risk 500000 .malformed).confidence_score = 70 ∧
    (assess_credit_risk 500000 .malformed).recommended_maximum_exposure = .num 1000000 ∧
    (assess_credit_risk 500000 .malformed).recommended_maximum_exposure ≠ .num 500000 ∧
    approvedAmount 500000 (assess_credit_risk 500000 .malformed).recommended_maximum_exposure =
      .ok 500000 := by
  refine ⟨rfl, rfl, rfl, by decide, ?_⟩
  have hmin : min (500000 : ℚ) 1000000 = 500000 := by norm_num
  simp [approvedAmount, coerceExposure, assess_credit_risk, Except.map, hmin]

/-- C4 counterexample: the BankFinanceAgent path approves 5000000 against
an exposure of 5000000 even when the bank per-offer cap is 1000000; the
approved amount exceeds min(requested, max_loan_amount). -/
theorem approved_amount_ignores_bank_cap :
    approvedAmount 5000000 (.num 5000000) = .ok 5000000 ∧
    ¬ ((5000000 : ℚ) ≤ min (5000000 : ℚ) bankSmall.max_loan_amount) := by
  constructor
  · simp [approvedAmount, coerceExposure, Except.map]
  · norm_num [bankSmall, min_def]

/-- C4 amended: both generators approve at most the requested amount; the
WFAP generator additionally caps at the bank max_loan_amount, while the
BankFinanceAgent generator caps only at the coerced recommended maximum
exposure and never consults max_loan_amount. -/
theorem approved_amount_bounds (requested v : ℚ) (e : ExposureVal)
    (h : coerceExposure requested e = .ok v) :
    approvedAmount requested e = .ok (min requested v) ∧
    min requested v ≤ requested ∧
    (∀ (amount : ℚ) (cfg : WfapBankConfig),
      wfap_approved_amount amount cfg ≤ amount ∧
      wfap_approved_amount amount cfg ≤ cfg.max_loan_amount) := by
  refine ⟨by simp [approvedAmount, h, Except.map], min_le_left _ _, fun amount cfg => ?_⟩
  exact ⟨min_le_left _ _, min_le_right _ _⟩

/-- Witness for C4 at a request of 1000 against a numeric exposure 500. -/
theorem approved_amount_bounds_witness :
    approvedAmount 1000 (.num 500) = .ok (min 1000 500) :=
  (approved_amount_bounds 1000 500 (.num 500) rfl).1

/-- C6 counterexample: at a concrete parsed response the pricing stage
returns risk adjustment 7 and rate 20 unchanged, not the lookup value 0.5
for a high rating nor the claimed formula value 4.68 for base 4.5, ESG
average 60 of 100 and multiplier 0.8. -/
theorem pricing_is_not_lookup_based :
    (determine_pricing bankA (.parsed pricingResp20)).risk_adjustment = 7 ∧
    specRiskLookup "high" = 1/2 ∧ (7 : ℚ) ≠ 1/2 ∧
    (determine_pricing bankA (.parsed pricingResp20)).carbon_adjusted_rate = 20 ∧
    specPreClampRate (9/2) "high" 60 (4/5) = 117/25 ∧ (20 : ℚ) ≠ 117/25 := by
  refine ⟨?_, rfl, by norm_num, ?_, ?_, by norm_num⟩
  · norm_num [determine_pricing, pricingResp20, bankA]
  · norm_num [determine_pricing, pricingResp20, bankA, repairRate]
  · norm_num [specPreClampRate, specRiskLookup]

/-- C6 amended: the pricing stage has no rating or ESG formula of its
own: a parsed in-range rate passes through unchanged and the risk
adjustment is whatever the response carried (default 0); a parse failure
yields the fixed fallback rate base + 0.3 through the repair chain; the
WFAP variant computes (base + credit-score adjustment + market
adjustment) times the esg multiplier, giving 4.08 rather than 4.68 in the
claimed scenario. -/
theorem pricing_passthrough_within_range (cfg : BankConfig) (d : PricingResponse) (v : ℚ)
    (hv : d.carbon_adjusted_rate = some v) (h0 : 0 < v) (h50 : v ≤ 50) :
    (determine_pricing cfg (.parsed d)).carbon_adjusted_rate = v ∧
    (determine_pricing cfg (.parsed d)).risk_adjustment = d.risk_adjustment.getD 0 ∧
    (determine_pricing cfg .malformed).carbon_adjusted_rate =
      repairRate cfg.min_interest_rate (cfg.min_interest_rate + 3/10) ∧
    wfap_carbon_rate wfapBankA 600 false Option.none = 102/25 := by
  refine ⟨?_, ?_, rfl, ?_⟩
  · have hstep : (determine_pricing cfg (.parsed d)).carbon_adjusted_rate =
        repairRate cfg.min_interest_rate v := by
      simp [determine_pricing, hv]
    rw [hstep, repairRate_id _ _ h0 h50]
  · simp [determine_pricing]
  · norm_num [wfap_carbon_rate, wfap_final_rate, wfapRateAdjustment,
      wfapMarketAdjustment, wfapBankA]

/-- Witness for C6 at bank A and the parsed response carrying rate 20. -/
theorem pricing_passthrough_within_range_witness :
    (determine_pricing bankA (.parsed pricingResp20)).carbon_adjusted_rate = 20 :=
  (pricing_passthrough_within_range bankA pricingResp20 20 rfl (by norm_num) (by norm_num)).1
